import Mathlib

/-!
Shallow embedding of `9dttt_bot.py` (the 9DTTT social-media bot) and proofs
about its posting-resilience and mention-idempotency logic.

Modelling conventions:
* Python strings are `List Char` (`PyStr`); `len` is `List.length`, slicing
  `s[:n]` is `List.take n`, `p in s` is substring containment, `.lower()` is
  `List.map Char.toLower`.
* Network calls (`client.create_tweet`, `api_v1.update_status`,
  `client.get_me`, `client.get_users_mentions`, `client.get_user`) are
  oracles supplied in an environment record; a raised exception is the
  `Except.error` case of the oracle's result.
* Global mutable state (`PAID_TIER`, `USE_LLM`) is threaded explicitly.
* Side effects (tweets created, likes, the persisted JSON file) are returned
  as explicit outputs.
-/

namespace NineDTTT

/-- Python strings modelled as lists of characters. -/
abbrev PyStr := List Char

/-- Convert a Lean string literal to the `PyStr` model. -/
def pystr (s : String) : PyStr := s.data

/-- Python `str.lower()`. -/
def pyLower (s : PyStr) : PyStr := s.map Char.toLower

/-- Python's substring test `pat in hay` on strings. -/
def pyContains (hay pat : PyStr) : Bool :=
  pat.isPrefixOf hay ||
    match hay with
    | [] => false
    | _ :: t => pyContains t pat

/-- Python truthiness of an optional integer argument
(`None` and `0` are falsy). -/
def optNatTruthy : Option Nat → Bool
  | none => false
  | some n => n != 0

/-- `TWITTER_CHAR_LIMIT = 280` (line 23). -/
def TWITTER_CHAR_LIMIT : Nat := 280

/-- The truncation step of `safe_post_tweet` (lines 77-81): text longer than
the platform limit is cut to `limit - 60` plus `"..."` when the post is a
reply, and to `limit - 20` plus `"…"` otherwise. -/
def truncatePost (text : PyStr) (isReply : Bool) : PyStr :=
  if TWITTER_CHAR_LIMIT < text.length then
    if isReply then text.take (TWITTER_CHAR_LIMIT - 60) ++ pystr "..."
    else text.take (TWITTER_CHAR_LIMIT - 20) ++ pystr "…"
  else text

/-- The error classification of line 93: `str(e).lower()` contains one of the
quota/billing/rate-limit markers. -/
def isQuotaErr (err : PyStr) : Bool :=
  pyContains err (pystr "402") || pyContains err (pystr "creditsdepleted") ||
    pyContains err (pystr "payment required") || pyContains err (pystr "403") ||
    pyContains err (pystr "rate limit")

/-- The keyword arguments assembled for `client.create_tweet` (lines 83-87):
`media_ids` is included only when truthy (nonempty), `in_reply_to_tweet_id`
only when truthy. -/
structure V2Args where
  text : PyStr
  media_ids : List Nat
  in_reply_to_tweet_id : Option Nat
  deriving DecidableEq

/-- The keyword arguments assembled for `api_v1.update_status`
(lines 101-106). -/
structure V1Args where
  status : PyStr
  media_ids : List Nat
  in_reply_to_status_id : Option Nat
  auto_populate_reply_metadata : Bool
  deriving DecidableEq

/-- Oracle for the two posting calls: `v2Error = none` means
`client.create_tweet` succeeds, `some e` means it raises a
`tweepy.TweepyException` whose `str` is `e`; `v1Ok` tells whether
`api_v1.update_status` succeeds. -/
structure PostEnv where
  v2Error : Option PyStr
  v1Ok : Bool

/-- Result of one `safe_post_tweet` call: the returned boolean, the globals
`PAID_TIER`/`USE_LLM` after the call, the v2 call that was attempted, and the
v1.1 fallback call if one was attempted. -/
structure PostResult where
  ok : Bool
  paidAfter : Bool
  useLlmAfter : Bool
  v2Call : V2Args
  v1Call : Option V1Args
  deriving DecidableEq

/-- `safe_post_tweet(text, media_ids=None, in_reply_to_tweet_id=None)`
(lines 74-112), with the globals `PAID_TIER`/`USE_LLM` passed in and the
network modelled by `env`.  `media_ids = []` models the falsy default
`None`. -/
def safe_post_tweet (paid useLlm : Bool) (env : PostEnv)
    (text : PyStr) (media_ids : List Nat) (in_reply_to_tweet_id : Option Nat) :
    PostResult :=
  let text := truncatePost text (optNatTruthy in_reply_to_tweet_id)
  let kwargs : V2Args :=
    { text := text
      media_ids := if media_ids.isEmpty then [] else media_ids
      in_reply_to_tweet_id :=
        if optNatTruthy in_reply_to_tweet_id then in_reply_to_tweet_id
        else none }
  match env.v2Error with
  | none =>
      { ok := true, paidAfter := paid, useLlmAfter := useLlm,
        v2Call := kwargs, v1Call := none }
  | some e =>
      let err := pyLower e
      if isQuotaErr err then
        let kwargs_v1 : V1Args :=
          { status := text
            media_ids := if media_ids.isEmpty then [] else media_ids
            in_reply_to_status_id :=
              if optNatTruthy in_reply_to_tweet_id then in_reply_to_tweet_id
              else none
            auto_populate_reply_metadata := optNatTruthy in_reply_to_tweet_id }
        { ok := env.v1Ok, paidAfter := false, useLlmAfter := false,
          v2Call := kwargs, v1Call := some kwargs_v1 }
      else
        { ok := false, paidAfter := paid, useLlmAfter := useLlm,
          v2Call := kwargs, v1Call := none }

/-! ## JSON model and the Flask event endpoint -/

/-- JSON values, as Python's `json` module produces them ( `null` doubles as
Python `None`, which is what `dict.get` returns for a missing key with no
default). -/
inductive Json where
  | str : PyStr → Json
  | num : Int → Json
  | bool : Bool → Json
  | null : Json
  | arr : List Json → Json
  | obj : List (PyStr × Json) → Json

/-- Python truthiness of a JSON value. -/
def pyTruthy : Json → Bool
  | .str s => !s.isEmpty
  | .num n => n != 0
  | .bool b => b
  | .null => false
  | .arr l => !l.isEmpty
  | .obj l => !l.isEmpty

/-- Lookup in a Python dict modelled as an association list
(keys are unique in a parsed JSON object; first match). -/
def dictGet : List (PyStr × Json) → PyStr → Option Json
  | [], _ => none
  | (k, v) :: rest, key => if k = key then some v else dictGet rest key

/-- Python `event.get(key, default)`. -/
def pyGet (d : List (PyStr × Json)) (key : PyStr) (dflt : Json) : Json :=
  (dictGet d key).getD dflt

/-- Python `==` between a JSON value and a string literal
(non-strings compare unequal, never raise). -/
def jEqStr (j : Json) (s : String) : Bool :=
  match j with
  | .str t => t = s.data
  | _ => false

/-- Python `str()` of a JSON value, as used by f-string interpolation.
Container rendering is abbreviated (no claim inspects it). -/
def pyStrOf : Json → PyStr
  | .str s => s
  | .num n => (toString n).data
  | .bool b => if b then pystr "True" else pystr "False"
  | .null => pystr "None"
  | .arr _ => pystr "[...]"
  | .obj _ => pystr "\x7b...\x7d"

/-- Python exceptions the embedded handlers can raise. -/
inductive PyError where
  | attributeError
  deriving DecidableEq

/-- `game_event_bridge(event)` (lines 293-328).  The `Except.ok` value is the
list of message texts handed to `post_update` (the bridge's only output
effect besides logging); `Except.error` is an uncaught Python exception.
`event.get` on a non-dict raises `AttributeError`, as does
`player.replace(' ', '')` (line 305) when `player` is not a string. -/
def game_event_bridge (event : Json) : Except PyError (List PyStr) :=
  match event with
  | .obj d =>
    let etype := pyGet d (pystr "type") .null
    let player := pyGet d (pystr "player") (.str (pystr "Mystery Strategist"))
    let opponent := pyGet d (pystr "opponent") (.str (pystr "the void"))
    let dims := pyGet d (pystr "dimensions") (.str (pystr "the multiverse"))
    let score := pyGet d (pystr "score") (.str (pystr ""))
    if jEqStr etype "win" then
      let msg :=
        if pyTruthy score then
          pystr "BOOM! " ++ pyStrOf player ++ pystr " crushed " ++
            pyStrOf opponent ++ pystr " " ++ pyStrOf score ++
            pystr " — dimensional domination! 🔥"
        else
          pystr "VICTORY in " ++ pyStrOf dims ++ pystr "! " ++
            pyStrOf player ++ pystr " claims supremacy over " ++
            pyStrOf opponent ++ pystr ". Legendary."
      match player with
      | .str s =>
          .ok [msg ++ pystr "\nCongrats @" ++
            s.filter (fun c => c ≠ ' ') ++ pystr "!"]
      | _ => .error .attributeError
    else if jEqStr etype "game_start" then
      .ok [pystr "New 9D battle: " ++ pyStrOf player ++ pystr " vs " ++
        pyStrOf opponent ++ pystr ". Who claims the grid? Place your bets 👀"]
    else if jEqStr etype "achievement" then
      let ach := pyGet d (pystr "achievement")
        (.str (pystr "Unknown Achievement"))
      .ok [pystr "🏆 " ++ pyStrOf player ++ pystr " unlocked: " ++
        pyStrOf ach ++ pystr "! Absolute legend status."]
    else if jEqStr etype "tournament" then
      let name := pyGet d (pystr "name") (.str (pystr "Dimensional Tournament"))
      let parts := pyGet d (pystr "participants") (.str (pystr "?"))
      .ok [pystr "TOURNAMENT: " ++ pyStrOf name ++ pystr " - " ++
        pyStrOf parts ++ pystr " players competing!"]
    else if jEqStr etype "leaderboard" then
      let top := pyGet d (pystr "top") (.str (pystr "Champion"))
      let rank := pyGet d (pystr "rank") (.str (pystr "#1"))
      .ok [pystr "LEADERBOARD UPDATE: " ++ pyStrOf top ++ pystr " holds " ++
        pyStrOf rank ++ pystr "!"]
    else
      .ok []
  | _ => .error .attributeError

/-- A response of the Flask endpoint: either a JSON body with a status code,
or the framework's 500 page for an exception that escapes the handler. -/
inductive HttpOutcome where
  | resp : Json → Nat → HttpOutcome
  | serverError : HttpOutcome

/-- The endpoint's 400 error body, `{"error": "JSON required"}` (line 122). -/
def jsonRequiredBody : Json :=
  .obj [(pystr "error", .str (pystr "JSON required"))]

/-- The endpoint's acknowledgement body, `{"ok": True}` (line 124). -/
def okBody : Json := .obj [(pystr "ok", .bool true)]

/-- `game_event()` (lines 119-124).  The input is the parsed request body:
`none` when the body is not valid JSON (then `request.json` is unavailable
and the `if not request.json` guard fires), `some j` otherwise.  A falsy
JSON value also fires the guard.  An exception escaping
`game_event_bridge` becomes the framework's 500 response. -/
def game_event (requestJson : Option Json) : HttpOutcome :=
  match requestJson with
  | none => .resp jsonRequiredBody 400
  | some j =>
    if !pyTruthy j then .resp jsonRequiredBody 400
    else
      match game_event_bridge j with
      | .ok _ => .resp okBody 200
      | .error _ => .serverError

/-! ## Mention processing (`bot_respond`, lines 455-495)

The construction of the reply text (lines 472-485: challenge detection,
victory detection, `generate_contextual_response` with its random template
choice and optional LLM enrichment) affects only the text content, never the
control flow that the claims are about, so it is abstracted away; the
outcome of the `safe_post_tweet` call for the reply to a given mention is an
oracle `postOk` over the network environment, and `client.like` is modelled
as succeeding (its id is recorded). -/

/-- One mention from `client.get_users_mentions` (id, `author_id`, text). -/
structure Mention where
  id : Nat
  author_id : Nat
  text : PyStr

/-- Oracles for the network calls `bot_respond` makes.  `Except.error ()` is
a raised `tweepy` exception; `Except.ok none` models a response whose
`.data` is falsy. -/
structure RespondEnv where
  getMe : Except Unit (Option Nat)
  getUsersMentions : Nat → Except Unit (Option (List Mention))
  getUser : Nat → Except Unit (Option PyStr)
  postOk : Nat → Bool

/-- State after the `for m in mentions.data` loop: the in-memory `processed`
set, ids of mentions successfully replied to, ids liked, and whether an
exception aborted the loop. -/
structure LoopResult where
  processed : Finset String
  posts : List Nat
  likes : List Nat
  raised : Bool
  deriving DecidableEq

/-- The `for m in mentions.data` loop body (lines 462-492): skip if
`str(m.id)` is already in `processed`; skip if author resolution returns no
data; abort the pass if it raises; otherwise reply via `safe_post_tweet` —
on success like the mention and add its id to `processed`, on failure leave
`processed` unchanged. -/
def processMentions (env : RespondEnv) :
    List Mention → Finset String → LoopResult
  | [], processed => ⟨processed, [], [], false⟩
  | m :: rest, processed =>
    let tid := toString m.id
    if tid ∈ processed then processMentions env rest processed
    else
      match env.getUser m.author_id with
      | .error _ => ⟨processed, [], [], true⟩
      | .ok none => processMentions env rest processed
      | .ok (some _un) =>
        if env.postOk m.id then
          let r := processMentions env rest (insert tid processed)
          ⟨r.processed, m.id :: r.posts, m.id :: r.likes, r.raised⟩
        else processMentions env rest processed

/-- Observable outcome of one `bot_respond` pass: contents of the storage
file `9dttt_processed_mentions.json` after the pass, the in-memory
`processed` set when the pass ended, successful outgoing reply posts, likes,
and whether an exception was caught by the outer handler. -/
structure PassResult where
  file : Finset String
  mem : Finset String
  posts : List Nat
  likes : List Nat
  raised : Bool
  deriving DecidableEq

/-- `bot_respond()` (lines 455-495), with the loaded file contents passed in
for `load_json_set`.  `save_json_set` (line 493) sits inside the `try`
block, so the early `return`s and the exception handler leave the file
untouched. -/
def bot_respond (env : RespondEnv) (file : Finset String) : PassResult :=
  let processed := file
  match env.getMe with
  | .error _ => ⟨file, processed, [], [], true⟩
  | .ok none => ⟨file, processed, [], [], false⟩
  | .ok (some meId) =>
    match env.getUsersMentions meId with
    | .error _ => ⟨file, processed, [], [], true⟩
    | .ok none => ⟨file, processed, [], [], false⟩
    | .ok (some mentionsData) =>
      let r := processMentions env mentionsData processed
      if r.raised then ⟨file, r.processed, r.posts, r.likes, true⟩
      else ⟨r.processed, r.processed, r.posts, r.likes, false⟩

/-! ## Theorems about `safe_post_tweet` -/

/-- C5: for every text input longer than the platform limit (280), the
truncated output's length is ≤ 280, and the headroom the truncation leaves
(limit minus truncated length) for a reply is at least the headroom left for
a non-reply. -/
theorem truncation_bounds (text : PyStr)
    (h : TWITTER_CHAR_LIMIT < text.length) :
    (truncatePost text true).length ≤ TWITTER_CHAR_LIMIT ∧
    (truncatePost text false).length ≤ TWITTER_CHAR_LIMIT ∧
    TWITTER_CHAR_LIMIT - (truncatePost text false).length ≤
      TWITTER_CHAR_LIMIT - (truncatePost text true).length := by
  have h3 : (pystr "...").length = 3 := rfl
  have h1 : (pystr "…").length = 1 := rfl
  simp only [truncatePost, if_pos h, if_true, if_false, Bool.false_eq_true,
    List.length_append, List.length_take, h3, h1]
  simp only [TWITTER_CHAR_LIMIT] at h ⊢
  omega

/-- Witness for `truncation_bounds` at a concrete 300-character text. -/
theorem truncation_bounds_witness :
    (truncatePost (List.replicate 300 'a') true).length ≤
      TWITTER_CHAR_LIMIT ∧
    (truncatePost (List.replicate 300 'a') false).length ≤
      TWITTER_CHAR_LIMIT ∧
    TWITTER_CHAR_LIMIT - (truncatePost (List.replicate 300 'a') false).length
      ≤ TWITTER_CHAR_LIMIT -
        (truncatePost (List.replicate 300 'a') true).length :=
  truncation_bounds (List.replicate 300 'a')
    (by rw [List.length_replicate]; decide)

/-- C1: when the primary (v2) call fails with an error message containing
"402", `PAID_TIER` (and `USE_LLM`) are set to `False`, the legacy v1.1 call
is attempted with the same text and media and the reply id adapted to the
legacy field names, and the function returns `True` if that legacy call
succeeds. -/
theorem quota_402_falls_back (paid useLlm : Bool) (env : PostEnv)
    (text : PyStr) (media_ids : List Nat) (reply : Option Nat) (e : PyStr)
    (hv2 : env.v2Error = some e)
    (h402 : pyContains (pyLower e) (pystr "402") = true) :
    (safe_post_tweet paid useLlm env text media_ids reply).paidAfter = false ∧
    (safe_post_tweet paid useLlm env text media_ids reply).useLlmAfter
      = false ∧
    (safe_post_tweet paid useLlm env text media_ids reply).v1Call =
      some
        ⟨(safe_post_tweet paid useLlm env text media_ids reply).v2Call.text,
         (safe_post_tweet paid useLlm env text media_ids
            reply).v2Call.media_ids,
         (safe_post_tweet paid useLlm env text media_ids
            reply).v2Call.in_reply_to_tweet_id,
         optNatTruthy reply⟩ ∧
    (env.v1Ok = true →
      (safe_post_tweet paid useLlm env text media_ids reply).ok = true) := by
  simp [safe_post_tweet, hv2, isQuotaErr, h402]

/-- Witness for `quota_402_falls_back`: a concrete 402 failure with media
and a reply id; the fallback call carries the same content. -/
theorem quota_402_falls_back_witness :
    (safe_post_tweet true true ⟨some (pystr "402 Payment Required"), true⟩
      (pystr "hello") [5] (some 99)).paidAfter = false ∧
    (safe_post_tweet true true ⟨some (pystr "402 Payment Required"), true⟩
      (pystr "hello") [5] (some 99)).ok = true :=
  have h := quota_402_falls_back true true
    ⟨some (pystr "402 Payment Required"), true⟩
    (pystr "hello") [5] (some 99) (pystr "402 Payment Required") rfl
    (by decide)
  ⟨h.1, h.2.2.2 rfl⟩

/-- C6: when the primary call fails with an error NOT classified as
quota/billing/rate-limit, no legacy call is attempted, the tier globals are
unchanged, and the function returns `False`. -/
theorem unclassified_error_no_fallback (paid useLlm : Bool) (env : PostEnv)
    (text : PyStr) (media_ids : List Nat) (reply : Option Nat) (e : PyStr)
    (hv2 : env.v2Error = some e)
    (h : isQuotaErr (pyLower e) = false) :
    (safe_post_tweet paid useLlm env text media_ids reply).ok = false ∧
    (safe_post_tweet paid useLlm env text media_ids reply).v1Call = none ∧
    (safe_post_tweet paid useLlm env text media_ids reply).paidAfter
      = paid ∧
    (safe_post_tweet paid useLlm env text media_ids reply).useLlmAfter
      = useLlm := by
  simp [safe_post_tweet, hv2, h]

/-- Witness for `unclassified_error_no_fallback` at the spec's example
message "network unreachable". -/
theorem unclassified_error_no_fallback_witness :
    (safe_post_tweet true true ⟨some (pystr "network unreachable"), true⟩
      (pystr "hello") [] none).ok = false ∧
    (safe_post_tweet true true ⟨some (pystr "network unreachable"), true⟩
      (pystr "hello") [] none).v1Call = none :=
  have h := unclassified_error_no_fallback true true
    ⟨some (pystr "network unreachable"), true⟩
    (pystr "hello") [] none (pystr "network unreachable") rfl (by decide)
  ⟨h.1, h.2.1⟩

/-- C7 counterexample: an error message containing "credits depleted" — with
the space, as the spec writes the marker — is NOT classified as a
quota/billing error by line 93 (which checks `"creditsdepleted"`, no
space): the tier is left elevated, no legacy call is attempted, and the
call fails even though the v1.1 call would have succeeded. -/
theorem credits_depleted_spaced_cex :
    (safe_post_tweet true true ⟨some (pystr "credits depleted"), true⟩
      (pystr "hi") [] none).paidAfter = true ∧
    (safe_post_tweet true true ⟨some (pystr "credits depleted"), true⟩
      (pystr "hi") [] none).v1Call = none ∧
    (safe_post_tweet true true ⟨some (pystr "credits depleted"), true⟩
      (pystr "hi") [] none).ok = false := by
  decide

/-- C7 amended: the marker actually checked is `"creditsdepleted"` (no
space); an error message containing that marker is classified as a
quota/billing error, flips the tier to baseline, and the legacy call is
attempted (succeeding when the legacy call succeeds). -/
theorem creditsdepleted_marker_falls_back (paid useLlm : Bool)
    (env : PostEnv) (text : PyStr) (media_ids : List Nat)
    (reply : Option Nat) (e : PyStr)
    (hv2 : env.v2Error = some e)
    (hcd : pyContains (pyLower e) (pystr "creditsdepleted") = true) :
    (safe_post_tweet paid useLlm env text media_ids reply).paidAfter
      = false ∧
    (safe_post_tweet paid useLlm env text media_ids reply).v1Call.isSome
      = true ∧
    (env.v1Ok = true →
      (safe_post_tweet paid useLlm env text media_ids reply).ok = true) := by
  simp [safe_post_tweet, hv2, isQuotaErr, hcd]

/-- Witness for `creditsdepleted_marker_falls_back` at a concrete
"CreditsDepleted" error. -/
theorem creditsdepleted_marker_falls_back_witness :
    (safe_post_tweet true true ⟨some (pystr "CreditsDepleted"), true⟩
      (pystr "hi") [] none).paidAfter = false ∧
    (safe_post_tweet true true ⟨some (pystr "CreditsDepleted"), true⟩
      (pystr "hi") [] none).ok = true :=
  have h := creditsdepleted_marker_falls_back true true
    ⟨some (pystr "CreditsDepleted"), true⟩ (pystr "hi") [] none
    (pystr "CreditsDepleted") rfl (by decide)
  ⟨h.1, h.2.2 rfl⟩

/-! ## Theorems about the event bridge and the Flask endpoint -/

/-- Whether an embedded Python computation completed without raising. -/
def exceptOk : Except PyError (List PyStr) → Bool
  | .ok _ => true
  | .error _ => false

/-- C8 counterexample: the JSON object `{"type": "win", "player": 123}` — a
present but non-string `player` field — makes `game_event_bridge` raise
`AttributeError` at `player.replace(' ', '')` (line 305), so the bridge
does not complete for every JSON-object body. -/
theorem bridge_nonstring_player_cex :
    game_event_bridge (.obj [(pystr "type", .str (pystr "win")),
      (pystr "player", .num 123)]) = .error .attributeError := by
  rfl

/-- C8 amended: for every JSON-object body whose `player` field (after the
default `"Mystery Strategist"` is substituted for a missing one) is a
string, `game_event_bridge` completes without raising; missing fields fall
back to fixed default strings.  A present non-string `player` in a `"win"`
event raises `AttributeError`. -/
theorem bridge_ok_for_string_player (d : List (PyStr × Json))
    (h : ∃ s, pyGet d (pystr "player")
      (.str (pystr "Mystery Strategist")) = .str s) :
    exceptOk (game_event_bridge (.obj d)) = true := by
  obtain ⟨s, hs⟩ := h
  simp only [game_event_bridge, hs]
  split_ifs <;> rfl

/-- Witness for `bridge_ok_for_string_player`: a concrete win event with a
string player and a missing opponent. -/
theorem bridge_ok_for_string_player_witness :
    exceptOk (game_event_bridge (.obj [(pystr "type", .str (pystr "win")),
      (pystr "player", .str (pystr "Ada Lovelace"))])) = true :=
  bridge_ok_for_string_player
    [(pystr "type", .str (pystr "win")),
     (pystr "player", .str (pystr "Ada Lovelace"))]
    ⟨pystr "Ada Lovelace", rfl⟩

/-- C9 counterexample: the body `{}` is valid JSON, yet — being falsy — the
`if not request.json` guard (line 121) fires and the endpoint answers the
client-error response `{"error": "JSON required"}` with status 400 instead
of an acknowledgement with a success status. -/
theorem empty_object_gets_400_cex :
    game_event (some (.obj [])) = .resp jsonRequiredBody 400 := by
  rfl

/-- C9 amended: an invalid-JSON body, or a valid-JSON body that is falsy
(empty object/array, `0`, `false`, `null`, `""`), gets the error body with
status 400; a truthy valid-JSON body on which the event bridge completes
without raising gets the acknowledgement `{"ok": true}` with status 200. -/
theorem game_event_status (rj : Option Json) :
    (rj = none → game_event rj = .resp jsonRequiredBody 400) ∧
    (∀ j, rj = some j → pyTruthy j = false →
      game_event rj = .resp jsonRequiredBody 400) ∧
    (∀ j msgs, rj = some j → pyTruthy j = true →
      game_event_bridge j = .ok msgs →
      game_event rj = .resp okBody 200) := by
  refine ⟨?_, ?_, ?_⟩
  · intro h; subst h; rfl
  · intro j hj hfalsy; subst hj; simp [game_event, hfalsy]
  · intro j msgs hj htruthy hok; subst hj; simp [game_event, htruthy, hok]

/-- Witness for `game_event_status`: a truthy JSON object with an
unrecognized event type is acknowledged with 200. -/
theorem game_event_status_witness :
    game_event (some (.obj [(pystr "type", .str (pystr "ping"))])) =
      .resp okBody 200 :=
  (game_event_status (some (.obj [(pystr "type", .str (pystr "ping"))]))).2.2
    (.obj [(pystr "type", .str (pystr "ping"))]) [] rfl (by decide) (by rfl)

/-! ## Lemmas about the mention loop -/

/-- Case equation: a mention whose id is already recorded is skipped. -/
theorem processMentions_cons_mem (env : RespondEnv) (m : Mention)
    (rest : List Mention) (proc : Finset String)
    (hmem : toString m.id ∈ proc) :
    processMentions env (m :: rest) proc = processMentions env rest proc := by
  simp [processMentions, hmem]

/-- Case equation: author resolution raising aborts the loop. -/
theorem processMentions_cons_raise (env : RespondEnv) (m : Mention)
    (rest : List Mention) (proc : Finset String)
    (hmem : toString m.id ∉ proc) (e : Unit)
    (hgu : env.getUser m.author_id = .error e) :
    processMentions env (m :: rest) proc = ⟨proc, [], [], true⟩ := by
  simp [processMentions, hmem, hgu]

/-- Case equation: author resolution returning no data skips the mention. -/
theorem processMentions_cons_nodata (env : RespondEnv) (m : Mention)
    (rest : List Mention) (proc : Finset String)
    (hmem : toString m.id ∉ proc)
    (hgu : env.getUser m.author_id = .ok none) :
    processMentions env (m :: rest) proc = processMentions env rest proc := by
  simp [processMentions, hmem, hgu]

/-- Case equation: a successful reply likes the mention and records its
id. -/
theorem processMentions_cons_success (env : RespondEnv) (m : Mention)
    (rest : List Mention) (proc : Finset String) (un : PyStr)
    (hmem : toString m.id ∉ proc)
    (hgu : env.getUser m.author_id = .ok (some un))
    (hpost : env.postOk m.id = true) :
    processMentions env (m :: rest) proc =
      ⟨(processMentions env rest (insert (toString m.id) proc)).processed,
       m.id :: (processMentions env rest (insert (toString m.id) proc)).posts,
       m.id :: (processMentions env rest (insert (toString m.id) proc)).likes,
       (processMentions env rest (insert (toString m.id) proc)).raised⟩ := by
  simp [processMentions, hmem, hgu, hpost]

/-- Case equation: a failed reply leaves the recorded set unchanged. -/
theorem processMentions_cons_postfail (env : RespondEnv) (m : Mention)
    (rest : List Mention) (proc : Finset String) (un : PyStr)
    (hmem : toString m.id ∉ proc)
    (hgu : env.getUser m.author_id = .ok (some un))
    (hpost : env.postOk m.id = false) :
    processMentions env (m :: rest) proc = processMentions env rest proc := by
  simp [processMentions, hmem, hgu, hpost]

/-- The loop only adds to the in-memory `processed` set. -/
theorem processMentions_subset (env : RespondEnv) (ms : List Mention) :
    ∀ proc : Finset String,
      proc ⊆ (processMentions env ms proc).processed := by
  induction ms with
  | nil => intro proc; simp [processMentions]
  | cons m rest ih =>
    intro proc
    simp only [processMentions]
    by_cases hmem : toString m.id ∈ proc
    · simpa [hmem] using ih proc
    · simp only [if_neg hmem]
      cases hgu : env.getUser m.author_id with
      | error e => simp
      | ok o =>
        cases o with
        | none => exact ih proc
        | some un =>
          by_cases hpost : env.postOk m.id
          · simp only [if_pos hpost]
            exact fun x hx =>
              ih (insert (toString m.id) proc) (Finset.mem_insert_of_mem hx)
          · simp only [if_neg hpost]; exact ih proc

/-- Every id the loop successfully replies to was absent from the set the
loop started with. -/
theorem processMentions_posts_fresh (env : RespondEnv) (ms : List Mention) :
    ∀ (proc : Finset String) (i : Nat),
      i ∈ (processMentions env ms proc).posts → toString i ∉ proc := by
  induction ms with
  | nil => intro proc i hi; simp [processMentions] at hi
  | cons m rest ih =>
    intro proc i hi
    simp only [processMentions] at hi
    by_cases hmem : toString m.id ∈ proc
    · rw [if_pos hmem] at hi; exact ih proc i hi
    · rw [if_neg hmem] at hi
      cases hgu : env.getUser m.author_id with
      | error e => rw [hgu] at hi; simp at hi
      | ok o =>
        rw [hgu] at hi
        cases o with
        | none => exact ih proc i hi
        | some un =>
          by_cases hpost : env.postOk m.id
          · rw [if_pos hpost] at hi
            simp only [List.mem_cons] at hi
            rcases hi with hi | hi
            · subst hi; exact hmem
            · have := ih (insert (toString m.id) proc) i hi
              exact fun hin => this (Finset.mem_insert_of_mem hin)
          · rw [if_neg hpost] at hi; exact ih proc i hi

/-- Re-running the loop on the set it produced (same batch, same oracles)
replies to nothing and changes nothing, provided the first run was not
aborted by an exception. -/
theorem processMentions_stable (env : RespondEnv) (ms : List Mention) :
    ∀ proc : Finset String,
      (processMentions env ms proc).raised = false →
      processMentions env ms (processMentions env ms proc).processed =
        ⟨(processMentions env ms proc).processed, [], [], false⟩ := by
  induction ms with
  | nil => intro proc _; rfl
  | cons m rest ih =>
    intro proc h
    by_cases hmem : toString m.id ∈ proc
    · rw [processMentions_cons_mem env m rest proc hmem] at h ⊢
      rw [processMentions_cons_mem env m rest _
        (processMentions_subset env rest proc hmem)]
      exact ih proc h
    · cases hgu : env.getUser m.author_id with
      | error e =>
        rw [processMentions_cons_raise env m rest proc hmem e hgu] at h
        dsimp only at h
        exact absurd h (by decide)
      | ok o =>
        cases o with
        | none =>
          rw [processMentions_cons_nodata env m rest proc hmem hgu] at h ⊢
          by_cases hmem2 :
              toString m.id ∈ (processMentions env rest proc).processed
          · rw [processMentions_cons_mem env m rest _ hmem2]; exact ih proc h
          · rw [processMentions_cons_nodata env m rest _ hmem2 hgu]
            exact ih proc h
        | some un =>
          cases hpost : env.postOk m.id with
          | true =>
            rw [processMentions_cons_success env m rest proc un hmem hgu
              hpost] at h ⊢
            dsimp only at h ⊢
            rw [processMentions_cons_mem env m rest _
              (processMentions_subset env rest _
                (Finset.mem_insert_self _ _))]
            exact ih (insert (toString m.id) proc) h
          | false =>
            rw [processMentions_cons_postfail env m rest proc un hmem hgu
              hpost] at h ⊢
            by_cases hmem2 :
                toString m.id ∈ (processMentions env rest proc).processed
            · rw [processMentions_cons_mem env m rest _ hmem2]; exact ih proc h
            · rw [processMentions_cons_postfail env m rest _ un hmem2 hgu
                hpost]
              exact ih proc h

/-! ## Case equations for `bot_respond` -/

/-- Case equation: `client.get_me()` raising aborts the pass before the
loop; the file is untouched. -/
theorem bot_respond_me_raise (env : RespondEnv) (file : Finset String)
    (e : Unit) (hgm : env.getMe = .error e) :
    bot_respond env file = ⟨file, file, [], [], true⟩ := by
  simp [bot_respond, hgm]

/-- Case equation: `get_me` returning no data ends the pass early; the file
is untouched. -/
theorem bot_respond_me_none (env : RespondEnv) (file : Finset String)
    (hgm : env.getMe = .ok none) :
    bot_respond env file = ⟨file, file, [], [], false⟩ := by
  simp [bot_respond, hgm]

/-- Case equation: the mention fetch raising aborts the pass; the file is
untouched. -/
theorem bot_respond_fetch_raise (env : RespondEnv) (file : Finset String)
    (meId : Nat) (e : Unit) (hgm : env.getMe = .ok (some meId))
    (hfm : env.getUsersMentions meId = .error e) :
    bot_respond env file = ⟨file, file, [], [], true⟩ := by
  simp [bot_respond, hgm, hfm]

/-- Case equation: an empty mention batch ends the pass early; the file is
untouched. -/
theorem bot_respond_fetch_none (env : RespondEnv) (file : Finset String)
    (meId : Nat) (hgm : env.getMe = .ok (some meId))
    (hfm : env.getUsersMentions meId = .ok none) :
    bot_respond env file = ⟨file, file, [], [], false⟩ := by
  simp [bot_respond, hgm, hfm]

/-- Case equation: a loop aborted by an exception skips `save_json_set`;
the file keeps its pre-pass contents. -/
theorem bot_respond_run_raised (env : RespondEnv) (file : Finset String)
    (meId : Nat) (ms : List Mention) (hgm : env.getMe = .ok (some meId))
    (hfm : env.getUsersMentions meId = .ok (some ms))
    (hr : (processMentions env ms file).raised = true) :
    bot_respond env file =
      ⟨file, (processMentions env ms file).processed,
       (processMentions env ms file).posts,
       (processMentions env ms file).likes, true⟩ := by
  simp [bot_respond, hgm, hfm, hr]

/-- Case equation: a loop that completes reaches `save_json_set`, which
persists the in-memory set. -/
theorem bot_respond_run_ok (env : RespondEnv) (file : Finset String)
    (meId : Nat) (ms : List Mention) (hgm : env.getMe = .ok (some meId))
    (hfm : env.getUsersMentions meId = .ok (some ms))
    (hr : (processMentions env ms file).raised = false) :
    bot_respond env file =
      ⟨(processMentions env ms file).processed,
       (processMentions env ms file).processed,
       (processMentions env ms file).posts,
       (processMentions env ms file).likes, false⟩ := by
  simp [bot_respond, hgm, hfm, hr]

/-! ## Theorems about `bot_respond` -/

/-- C3: for a mention reached by the loop (id not yet recorded, author
resolved): if the reply succeeds, its id is recorded in the processed set
and the mention is liked; if the reply fails, the loop continues with the
processed set unchanged, leaving the mention eligible for the next pass. -/
theorem mention_reply_marking (env : RespondEnv) (m : Mention)
    (rest : List Mention) (proc : Finset String)
    (hmem : toString m.id ∉ proc) (un : PyStr)
    (hgu : env.getUser m.author_id = .ok (some un)) :
    (env.postOk m.id = true →
      toString m.id ∈ (processMentions env (m :: rest) proc).processed ∧
      m.id ∈ (processMentions env (m :: rest) proc).posts ∧
      m.id ∈ (processMentions env (m :: rest) proc).likes) ∧
    (env.postOk m.id = false →
      processMentions env (m :: rest) proc =
        processMentions env rest proc) := by
  constructor
  · intro hpost
    rw [processMentions_cons_success env m rest proc un hmem hgu hpost]
    dsimp only
    refine ⟨?_, ?_, ?_⟩
    · exact processMentions_subset env rest _ (Finset.mem_insert_self _ _)
    · exact List.mem_cons_self _ _
    · exact List.mem_cons_self _ _
  · intro hpost
    exact processMentions_cons_postfail env m rest proc un hmem hgu hpost

/-- C10: a mention pass only ever adds identifiers: the file after the pass
(and the in-memory set) always contains the set loaded at the start; in
particular whenever the pass reaches `save_json_set`, the persisted set is
a superset of the loaded one. -/
theorem processed_set_monotone (env : RespondEnv) (file : Finset String) :
    file ⊆ (bot_respond env file).file ∧
    file ⊆ (bot_respond env file).mem := by
  cases hgm : env.getMe with
  | error e =>
    rw [bot_respond_me_raise env file e hgm]
    exact ⟨Finset.Subset.refl _, Finset.Subset.refl _⟩
  | ok o =>
    cases o with
    | none =>
      rw [bot_respond_me_none env file hgm]
      exact ⟨Finset.Subset.refl _, Finset.Subset.refl _⟩
    | some meId =>
      cases hfm : env.getUsersMentions meId with
      | error e =>
        rw [bot_respond_fetch_raise env file meId e hgm hfm]
        exact ⟨Finset.Subset.refl _, Finset.Subset.refl _⟩
      | ok od =>
        cases od with
        | none =>
          rw [bot_respond_fetch_none env file meId hgm hfm]
          exact ⟨Finset.Subset.refl _, Finset.Subset.refl _⟩
        | some ms =>
          cases hr : (processMentions env ms file).raised with
          | true =>
            rw [bot_respond_run_raised env file meId ms hgm hfm hr]
            exact ⟨Finset.Subset.refl _, processMentions_subset env ms file⟩
          | false =>
            rw [bot_respond_run_ok env file meId ms hgm hfm hr]
            exact ⟨processMentions_subset env ms file,
              processMentions_subset env ms file⟩

/-- C2: a pass that completed without an exception leaves nothing to do:
re-running `bot_respond` on the set it persisted, with the same batch and
oracles, produces zero outgoing posts and changes nothing; and no id
already present in the loaded set is ever replied to. -/
theorem mention_pass_idempotent (env : RespondEnv) (file : Finset String)
    (h : (bot_respond env file).raised = false) :
    bot_respond env ((bot_respond env file).file) =
      ⟨(bot_respond env file).file, (bot_respond env file).file,
       [], [], false⟩ ∧
    ∀ i ∈ (bot_respond env file).posts, toString i ∉ file := by
  cases hgm : env.getMe with
  | error e =>
    rw [bot_respond_me_raise env file e hgm] at h
    dsimp only at h
    exact absurd h (by decide)
  | ok o =>
    cases o with
    | none =>
      rw [bot_respond_me_none env file hgm]
      dsimp only
      exact ⟨bot_respond_me_none env file hgm, by simp⟩
    | some meId =>
      cases hfm : env.getUsersMentions meId with
      | error e =>
        rw [bot_respond_fetch_raise env file meId e hgm hfm] at h
        dsimp only at h
        exact absurd h (by decide)
      | ok od =>
        cases od with
        | none =>
          rw [bot_respond_fetch_none env file meId hgm hfm]
          dsimp only
          exact ⟨bot_respond_fetch_none env file meId hgm hfm, by simp⟩
        | some ms =>
          cases hr : (processMentions env ms file).raised with
          | true =>
            rw [bot_respond_run_raised env file meId ms hgm hfm hr] at h
            dsimp only at h
            exact absurd h (by decide)
          | false =>
            rw [bot_respond_run_ok env file meId ms hgm hfm hr]
            dsimp only
            have hstable := processMentions_stable env ms file hr
            have hr2 : (processMentions env ms
                (processMentions env ms file).processed).raised = false := by
              rw [hstable]
            constructor
            · rw [bot_respond_run_ok env _ meId ms hgm hfm hr2, hstable]
            · exact fun i hi => processMentions_posts_fresh env ms file i hi

/-- C4 amended: when an exception aborts a mention pass, `save_json_set`
(inside the `try` block) is skipped, so the storage file keeps its pre-pass
contents — identifiers marked processed earlier in that pass are NOT
persisted.  (Partial progress survives only a pass that completes without
raising; per-mention posting failures do not raise.) -/
theorem midpass_exception_skips_save (env : RespondEnv)
    (file : Finset String) (h : (bot_respond env file).raised = true) :
    (bot_respond env file).file = file := by
  cases hgm : env.getMe with
  | error e => rw [bot_respond_me_raise env file e hgm]
  | ok o =>
    cases o with
    | none =>
      rw [bot_respond_me_none env file hgm] at h
      dsimp only at h
      exact absurd h (by decide)
    | some meId =>
      cases hfm : env.getUsersMentions meId with
      | error e => rw [bot_respond_fetch_raise env file meId e hgm hfm]
      | ok od =>
        cases od with
        | none =>
          rw [bot_respond_fetch_none env file meId hgm hfm] at h
          dsimp only at h
          exact absurd h (by decide)
        | some ms =>
          cases hr : (processMentions env ms file).raised with
          | true => rw [bot_respond_run_raised env file meId ms hgm hfm hr]
          | false =>
            rw [bot_respond_run_ok env file meId ms hgm hfm hr] at h
            dsimp only at h
            exact absurd h (by decide)

/-! ## Concrete environments for witnesses and counterexamples -/

/-- A benign environment: two mentions, both authors resolve, every reply
succeeds. -/
def envA : RespondEnv where
  getMe := .ok (some 7)
  getUsersMentions := fun _ =>
    .ok (some [⟨101, 11, pystr "gm"⟩, ⟨102, 12, pystr "challenge"⟩])
  getUser := fun a =>
    if a = 11 then .ok (some (pystr "alice")) else .ok (some (pystr "bob"))
  postOk := fun _ => true

/-- An environment where the first mention's reply succeeds and resolving
the second mention's author raises. -/
def envC4 : RespondEnv where
  getMe := .ok (some 7)
  getUsersMentions := fun _ =>
    .ok (some [⟨1, 10, pystr "hi"⟩, ⟨2, 11, pystr "yo"⟩])
  getUser := fun a =>
    if a = 10 then .ok (some (pystr "alice")) else .error ()
  postOk := fun _ => true

/-- Witness for `mention_pass_idempotent`: starting from `{"101"}` with the
batch `[101, 102]`, the pass replies only to 102 and a re-run on the
persisted set changes nothing. -/
theorem mention_pass_idempotent_witness :
    (bot_respond envA {"101"}).raised = false ∧
    bot_respond envA ((bot_respond envA {"101"}).file) =
      ⟨(bot_respond envA {"101"}).file, (bot_respond envA {"101"}).file,
       [], [], false⟩ :=
  ⟨by decide, (mention_pass_idempotent envA {"101"} (by decide)).1⟩

/-- Witness for `mention_reply_marking`: mention 102's reply succeeds, so
"102" is recorded and the mention is liked. -/
theorem mention_reply_marking_witness :
    toString (102 : Nat) ∈
      (processMentions envA [⟨102, 12, pystr "x"⟩] ∅).processed ∧
    (102 : Nat) ∈ (processMentions envA [⟨102, 12, pystr "x"⟩] ∅).posts ∧
    (102 : Nat) ∈ (processMentions envA [⟨102, 12, pystr "x"⟩] ∅).likes :=
  (mention_reply_marking envA ⟨102, 12, pystr "x"⟩ [] ∅ (by decide)
    (pystr "bob") rfl).1 rfl

/-- C4 counterexample: in `envC4`, starting from an empty file, the reply to
mention 1 succeeds ("1" is marked processed in memory and the reply is
posted), then author resolution of mention 2 raises — and the persisted
file is still empty: the partial progress of the pass was NOT saved. -/
theorem midpass_exception_loses_progress_cex :
    (bot_respond envC4 ∅).posts = [1] ∧
    (bot_respond envC4 ∅).mem = {"1"} ∧
    (bot_respond envC4 ∅).raised = true ∧
    (bot_respond envC4 ∅).file = ∅ := by
  decide

/-- Witness for `midpass_exception_skips_save` at the concrete aborted
pass of `envC4`. -/
theorem midpass_exception_skips_save_witness :
    (bot_respond envC4 ∅).file = ∅ :=
  midpass_exception_skips_save envC4 ∅ (by decide)

end NineDTTT
